import Mathlib

/-!
Shallow embedding of the Camera subsystem (camera.js) and of GameObject
(game_object.js) of a 2D game engine.  JS number arrays are modelled through
an explicit store of references so that copy-versus-reference behaviour of
the accessors is observable.  Camera geometry uses rationals; the GameObject
front-direction normalization, which divides by a square root, uses reals.
-/

namespace Eng

/-- A 2D point or vector in world coordinates (a gl-matrix vec2). -/
structure Vec2 where
  x : ℚ
  y : ℚ
deriving DecidableEq

/-- A JS array of four numbers: a rectangle `[x, y, width, height]` or an
RGBA color `[r, g, b, a]`. -/
abbrev Arr4 : Type := Fin 4 → ℚ

/-- The mutable JS heap for number arrays: a bump allocator over references. -/
structure Store where
  next : ℕ
  mem : ℕ → Arr4

/-- Dereference an array. -/
def Store.read (s : Store) (r : ℕ) : Arr4 := s.mem r

/-- In-place update of one element of the array behind reference `r`. -/
def Store.writeIdx (s : Store) (r : ℕ) (i : Fin 4) (v : ℚ) : Store :=
  ⟨s.next, fun r2 => if r2 = r then Function.update (s.mem r) i v else s.mem r2⟩

/-- Allocate a fresh array (a JS array literal). -/
def Store.alloc (s : Store) (a : Arr4) : ℕ × Store :=
  (s.next, ⟨s.next + 1, fun r2 => if r2 = s.next then a else s.mem r2⟩)

/-- A heap with no arrays allocated yet. -/
def Store.empty : Store := ⟨0, fun _ _ => 0⟩

/-- Modelled from the spec: the collide-status flags of the external
BoundingBox collaborator (bounding_box.js is not under src/).  The status is
a bitmask over the named edge flags, with a distinct value for full
containment; camera.js only relies on the flags being distinct bits and on
the containment value being distinct from every flag combination. -/
def eCollideLeft : ℕ := 1

/-- Collide-right flag of the bitmask status. -/
def eCollideRight : ℕ := 2

/-- Collide-top flag of the bitmask status. -/
def eCollideTop : ℕ := 4

/-- Collide-bottom flag of the bitmask status. -/
def eCollideBottom : ℕ := 8

/-- Status value meaning the queried box is fully inside. -/
def eInside : ℕ := 16

/-- Modelled from the spec: the BoundingBox collaborator is constructible
from (center, width, height). -/
structure BoundingBox where
  mCenter : Vec2
  mWidth : ℚ
  mHeight : ℚ
deriving DecidableEq

/-- Left edge of a bounding box. -/
def BoundingBox.minX (b : BoundingBox) : ℚ := b.mCenter.x - b.mWidth / 2

/-- Right edge of a bounding box. -/
def BoundingBox.maxX (b : BoundingBox) : ℚ := b.mCenter.x + b.mWidth / 2

/-- Bottom edge of a bounding box. -/
def BoundingBox.minY (b : BoundingBox) : ℚ := b.mCenter.y - b.mHeight / 2

/-- Top edge of a bounding box. -/
def BoundingBox.maxY (b : BoundingBox) : ℚ := b.mCenter.y + b.mHeight / 2

/-- Modelled from the spec: the collide-status query of the BoundingBox
collaborator (bounding_box.js is not under src/): a bitmask indicating
containment or which edges of `cb` the box `ob` sticks out of; an edge flag
is set exactly when `ob` extends strictly beyond that edge of `cb`, and the
status is the containment value when no edge is violated (this is what the
documented scenario of the spec requires: an object whose right edge is at
12 against a world window whose right edge is at 10 reports collide-right). -/
def BoundingBox.boundCollideStatus (cb ob : BoundingBox) : ℕ :=
  let s : ℕ :=
    (if ob.minX < cb.minX then eCollideLeft else 0) |||
    (if ob.maxX > cb.maxX then eCollideRight else 0) |||
    (if ob.minY < cb.minY then eCollideBottom else 0) |||
    (if ob.maxY > cb.maxY then eCollideTop else 0)
  if s = 0 then eInside else s

/-- The Transform collaborator used by the clamp and collide queries:
position, width and height of a game object (per the spec it exposes
getPosition, getWidth and getHeight). -/
structure Xform where
  mPosition : Vec2
  mWidth : ℚ
  mHeight : ℚ
deriving DecidableEq

/-- Modelled from the spec: CameraState (camera_state.js is not under src/)
holds the logical center and width of the viewing window; pure data plus
accessors. -/
structure CameraState where
  mCenter : Vec2
  mWidth : ℚ
deriving DecidableEq

/-- CameraState accessor for the stored center. -/
def CameraState.getCenter (cs : CameraState) : Vec2 := cs.mCenter

/-- CameraState accessor for the stored width. -/
def CameraState.getWidth (cs : CameraState) : ℚ := cs.mWidth

/-- CameraState setter for the center. -/
def CameraState.setCenter (cs : CameraState) (c : Vec2) : CameraState :=
  { cs with mCenter := c }

/-- CameraState setter for the width. -/
def CameraState.setWidth (cs : CameraState) (w : ℚ) : CameraState :=
  { cs with mWidth := w }

/-- A 4x4 matrix (a gl-matrix mat4), row i column j, acting on column
vectors. -/
structure Mat4 where
  m00 : ℚ
  m01 : ℚ
  m02 : ℚ
  m03 : ℚ
  m10 : ℚ
  m11 : ℚ
  m12 : ℚ
  m13 : ℚ
  m20 : ℚ
  m21 : ℚ
  m22 : ℚ
  m23 : ℚ
  m30 : ℚ
  m31 : ℚ
  m32 : ℚ
  m33 : ℚ
deriving DecidableEq

/-- A homogeneous 4-vector. -/
structure Vec4 where
  x : ℚ
  y : ℚ
  z : ℚ
  w : ℚ
deriving DecidableEq

/-- Matrix product, entry (i,j) of `matMul a b` is the dot product of row i
of `a` with column j of `b`. -/
def matMul (a b : Mat4) : Mat4 :=
  ⟨a.m00 * b.m00 + a.m01 * b.m10 + a.m02 * b.m20 + a.m03 * b.m30,
   a.m00 * b.m01 + a.m01 * b.m11 + a.m02 * b.m21 + a.m03 * b.m31,
   a.m00 * b.m02 + a.m01 * b.m12 + a.m02 * b.m22 + a.m03 * b.m32,
   a.m00 * b.m03 + a.m01 * b.m13 + a.m02 * b.m23 + a.m03 * b.m33,
   a.m10 * b.m00 + a.m11 * b.m10 + a.m12 * b.m20 + a.m13 * b.m30,
   a.m10 * b.m01 + a.m11 * b.m11 + a.m12 * b.m21 + a.m13 * b.m31,
   a.m10 * b.m02 + a.m11 * b.m12 + a.m12 * b.m22 + a.m13 * b.m32,
   a.m10 * b.m03 + a.m11 * b.m13 + a.m12 * b.m23 + a.m13 * b.m33,
   a.m20 * b.m00 + a.m21 * b.m10 + a.m22 * b.m20 + a.m23 * b.m30,
   a.m20 * b.m01 + a.m21 * b.m11 + a.m22 * b.m21 + a.m23 * b.m31,
   a.m20 * b.m02 + a.m21 * b.m12 + a.m22 * b.m22 + a.m23 * b.m32,
   a.m20 * b.m03 + a.m21 * b.m13 + a.m22 * b.m23 + a.m23 * b.m33,
   a.m30 * b.m00 + a.m31 * b.m10 + a.m32 * b.m20 + a.m33 * b.m30,
   a.m30 * b.m01 + a.m31 * b.m11 + a.m32 * b.m21 + a.m33 * b.m31,
   a.m30 * b.m02 + a.m31 * b.m12 + a.m32 * b.m22 + a.m33 * b.m32,
   a.m30 * b.m03 + a.m31 * b.m13 + a.m32 * b.m23 + a.m33 * b.m33⟩

/-- Apply a matrix to a column vector. -/
def mulVec4 (m : Mat4) (v : Vec4) : Vec4 :=
  ⟨m.m00 * v.x + m.m01 * v.y + m.m02 * v.z + m.m03 * v.w,
   m.m10 * v.x + m.m11 * v.y + m.m12 * v.z + m.m13 * v.w,
   m.m20 * v.x + m.m21 * v.y + m.m22 * v.z + m.m23 * v.w,
   m.m30 * v.x + m.m31 * v.y + m.m32 * v.z + m.m33 * v.w⟩

/-- gl-matrix mat4.create: the identity matrix. -/
def mat4create : Mat4 :=
  ⟨1, 0, 0, 0, 0, 1, 0, 0, 0, 0, 1, 0, 0, 0, 0, 1⟩

/-- The scaling matrix with factors (x, y, z). -/
def scaleMat (v : ℚ × ℚ × ℚ) : Mat4 :=
  ⟨v.1, 0, 0, 0, 0, v.2.1, 0, 0, 0, 0, v.2.2, 0, 0, 0, 0, 1⟩

/-- The translation matrix by (x, y, z). -/
def translateMat (v : ℚ × ℚ × ℚ) : Mat4 :=
  ⟨1, 0, 0, v.1, 0, 1, 0, v.2.1, 0, 0, 1, v.2.2, 0, 0, 0, 1⟩

/-- gl-matrix mat4.scale: in the column-vector convention it post-multiplies
its matrix argument by the scaling matrix. -/
def mat4scale (a : Mat4) (v : ℚ × ℚ × ℚ) : Mat4 := matMul a (scaleMat v)

/-- gl-matrix mat4.translate: it post-multiplies its matrix argument by the
translation matrix. -/
def mat4translate (a : Mat4) (v : ℚ × ℚ × ℚ) : Mat4 := matMul a (translateMat v)

/-- One operation issued against the shared graphics surface (gl.js is a
collaborator; these are the six calls camera.js makes during draw-prep). -/
inductive GLCall where
  | viewport (x y w h : ℚ)
  | scissor (x y w h : ℚ)
  | clearColor (r g b a : ℚ)
  | enableScissorTest
  | clear
  | disableScissorTest
deriving DecidableEq

/-- Per-render cached values of the camera (class PerRenderCache of
camera.js). -/
structure PerRenderCache where
  mWCToPixelRatio : ℚ
  mCameraOrgX : ℚ
  mCameraOrgY : ℚ
  mCameraPosInPixelSpace : ℚ × ℚ × ℚ
deriving DecidableEq

/-- The fields of class Camera of camera.js.  The three JS arrays
(mViewport, mScissorBound, mBGColor) are references into the store; the
shake collaborator is modelled by the center its getCenter() reports, per
the capability interface of the spec. -/
structure Camera where
  mCameraState : CameraState
  mCameraShake : Option Vec2
  mViewport : ℕ
  mViewportBound : ℚ
  mScissorBound : ℕ
  kCameraZ : ℚ
  mCameraMatrix : Mat4
  mBGColor : ℕ
  mRenderCache : PerRenderCache
deriving DecidableEq

/-- Camera.getWCCenter. -/
def Camera.getWCCenter (c : Camera) : Vec2 := c.mCameraState.getCenter

/-- Camera.setWCCenter. -/
def Camera.setWCCenter (c : Camera) (xPos yPos : ℚ) : Camera :=
  { c with mCameraState := c.mCameraState.setCenter ⟨xPos, yPos⟩ }

/-- Camera.getWCWidth. -/
def Camera.getWCWidth (c : Camera) : ℚ := c.mCameraState.getWidth

/-- Camera.setWCWidth. -/
def Camera.setWCWidth (c : Camera) (w : ℚ) : Camera :=
  { c with mCameraState := c.mCameraState.setWidth w }

/-- Camera.getWCHeight: width times the height/width ratio of the stored
pixel viewport mViewport (the inset rectangle). -/
def Camera.getWCHeight (c : Camera) (s : Store) : ℚ :=
  let ratio := Store.read s c.mViewport 3 / Store.read s c.mViewport 2
  c.mCameraState.getWidth * ratio

/-- Camera.setViewport: stores raw rectangle plus inset `bound` into
mViewport and the raw rectangle into mScissorBound, mutating both arrays in
place; a missing bound defaults to the stored mViewportBound. -/
def Camera.setViewport (c : Camera) (s : Store) (viewportArray : Arr4)
    (boundOpt : Option ℚ) : Store :=
  let bound := boundOpt.getD c.mViewportBound
  let s1 := Store.writeIdx s c.mViewport 0 (viewportArray 0 + bound)
  let s2 := Store.writeIdx s1 c.mViewport 1 (viewportArray 1 + bound)
  let s3 := Store.writeIdx s2 c.mViewport 2 (viewportArray 2 - 2 * bound)
  let s4 := Store.writeIdx s3 c.mViewport 3 (viewportArray 3 - 2 * bound)
  let s5 := Store.writeIdx s4 c.mScissorBound 0 (viewportArray 0)
  let s6 := Store.writeIdx s5 c.mScissorBound 1 (viewportArray 1)
  let s7 := Store.writeIdx s6 c.mScissorBound 2 (viewportArray 2)
  Store.writeIdx s7 c.mScissorBound 3 (viewportArray 3)

/-- Camera.getViewport: allocates a fresh array holding a copy of the
scissor rectangle (the outer, un-inset bounds) and returns it. -/
def Camera.getViewport (c : Camera) (s : Store) : ℕ × Store :=
  Store.alloc s (fun i => Store.read s c.mScissorBound i)

/-- Camera.setBackgroundColor: stores the reference handed in by the caller
(no copy is made). -/
def Camera.setBackgroundColor (c : Camera) (newColor : ℕ) : Camera :=
  { c with mBGColor := newColor }

/-- Camera.getBackgroundColor: returns the stored reference itself. -/
def Camera.getBackgroundColor (c : Camera) : ℕ := c.mBGColor

/-- Camera.getCameraMatrix. -/
def Camera.getCameraMatrix (c : Camera) : Mat4 := c.mCameraMatrix

/-- The effective center used by draw-prep: the center of the shake
collaborator when one is present, else the stored logical center (lines
207 to 212 of camera.js). -/
def Camera.effectiveCenter (c : Camera) : Vec2 :=
  match c.mCameraShake with
  | some sh => sh
  | none => c.getWCCenter

/-- Modelled from the spec: wcPosToPixel (the world-to-pixel utility region
of camera.js is not under src/): pixel = (worldPoint - cameraOrg) *
wcToPixelRatio, using the per-render cache. -/
def Camera.wcPosToPixel (c : Camera) (p : Vec2) : Vec2 :=
  ⟨(p.x - c.mRenderCache.mCameraOrgX) * c.mRenderCache.mWCToPixelRatio,
   (p.y - c.mRenderCache.mCameraOrgY) * c.mRenderCache.mWCToPixelRatio⟩

/-- Modelled from the spec: fakeZInPixelSpace (not under src/), the
synthetic depth value of a world z in pixel space, using the cached
world-to-pixel ratio. -/
def Camera.fakeZInPixelSpace (c : Camera) (z : ℚ) : ℚ :=
  z * c.mRenderCache.mWCToPixelRatio

/-- Camera.setViewAndCameraMatrix: issues the six graphics-surface calls of
steps A1 to A4 in order, then recomputes the camera matrix from the
effective center (steps B1, B2) and refreshes the per-render cache (step
B3).  Returns the updated camera and the list of issued calls. -/
def Camera.setViewAndCameraMatrix (c : Camera) (s : Store) :
    Camera × List GLCall :=
  let vp := Store.read s c.mViewport
  let sb := Store.read s c.mScissorBound
  let bg := Store.read s c.mBGColor
  let calls : List GLCall :=
    [GLCall.viewport (vp 0) (vp 1) (vp 2) (vp 3),
     GLCall.scissor (sb 0) (sb 1) (sb 2) (sb 3),
     GLCall.clearColor (bg 0) (bg 1) (bg 2) (bg 3),
     GLCall.enableScissorTest,
     GLCall.clear,
     GLCall.disableScissorTest]
  let center := c.effectiveCenter
  let m1 := mat4scale mat4create
    (2 / c.getWCWidth, 2 / c.getWCHeight s, 1 / c.kCameraZ)
  let m2 := mat4translate m1 (-center.x, -center.y, -c.kCameraZ / 2)
  let ratio := vp 2 / c.getWCWidth
  let orgX := center.x - c.getWCWidth / 2
  let orgY := center.y - c.getWCHeight s / 2
  let cMid : Camera :=
    { c with
      mCameraMatrix := m2,
      mRenderCache :=
        { mWCToPixelRatio := ratio,
          mCameraOrgX := orgX,
          mCameraOrgY := orgY,
          mCameraPosInPixelSpace := c.mRenderCache.mCameraPosInPixelSpace } }
  let p := cMid.wcPosToPixel c.getWCCenter
  let cFinal : Camera :=
    { cMid with
      mRenderCache :=
        { cMid.mRenderCache with
          mCameraPosInPixelSpace := (p.x, p.y, cMid.fakeZInPixelSpace c.kCameraZ) } }
  (cFinal, calls)

/-- Camera.collideWCBound: status of the bounding box of the queried
transform against the zone-scaled world window. -/
def Camera.collideWCBound (c : Camera) (s : Store) (aXform : Xform)
    (zone : ℚ) : ℕ :=
  let bbox : BoundingBox := ⟨aXform.mPosition, aXform.mWidth, aXform.mHeight⟩
  let w := zone * c.getWCWidth
  let h := zone * c.getWCHeight s
  let cameraBound : BoundingBox := ⟨c.getWCCenter, w, h⟩
  cameraBound.boundCollideStatus bbox

/-- Camera.clampAtBoundary: computes the collide status, then, when not
fully inside, rewrites the position coordinate by coordinate in source
order (top, bottom, right, left); returns the pre-clamp status together
with the updated transform. -/
def Camera.clampAtBoundary (c : Camera) (s : Store) (aXform : Xform)
    (zone : ℚ) : ℕ × Xform :=
  let status := c.collideWCBound s aXform zone
  let xf :=
    if status ≠ eInside then
      let pos := aXform.mPosition
      let y1 := if status &&& eCollideTop ≠ 0 then
          c.getWCCenter.y + zone * c.getWCHeight s / 2 - aXform.mHeight / 2
        else pos.y
      let y2 := if status &&& eCollideBottom ≠ 0 then
          c.getWCCenter.y - zone * c.getWCHeight s / 2 + aXform.mHeight / 2
        else y1
      let x1 := if status &&& eCollideRight ≠ 0 then
          c.getWCCenter.x + zone * c.getWCWidth / 2 - aXform.mWidth / 2
        else pos.x
      let x2 := if status &&& eCollideLeft ≠ 0 then
          c.getWCCenter.x - zone * c.getWCWidth / 2 + aXform.mWidth / 2
        else x1
      { aXform with mPosition := ⟨x2, y2⟩ }
    else aXform
  (status, xf)

/-- The Camera constructor: allocates the three owned arrays, defaults the
bound to 0 when absent, and configures the viewport through setViewport
with the stored bound, exactly as the JS constructor does. -/
def Camera.new (wcCenter : Vec2) (wcWidth : ℚ) (viewportArray : Arr4)
    (boundOpt : Option ℚ) (s : Store) : Camera × Store :=
  let a1 := Store.alloc s (fun _ => 0)
  let a2 := Store.alloc a1.2 (fun _ => 0)
  let b := boundOpt.getD 0
  let a3 := Store.alloc a2.2 (fun i => if i = 3 then 1 else 4 / 5)
  let c : Camera :=
    { mCameraState := ⟨wcCenter, wcWidth⟩,
      mCameraShake := none,
      mViewport := a1.1,
      mViewportBound := b,
      mScissorBound := a2.1,
      kCameraZ := 10,
      mCameraMatrix := mat4create,
      mBGColor := a3.1,
      mRenderCache :=
        { mWCToPixelRatio := 1, mCameraOrgX := 1, mCameraOrgY := 1,
          mCameraPosInPixelSpace := (0, 0, 0) } }
  (c, c.setViewport a3.2 viewportArray (some b))

/-- Whether, scanning a trace of graphics calls with the given initial
scissor-test state, every clear happens while the scissor test is enabled. -/
def clearGuarded : Bool → List GLCall → Bool
  | _, [] => true
  | _, GLCall.enableScissorTest :: rest => clearGuarded true rest
  | _, GLCall.disableScissorTest :: rest => clearGuarded false rest
  | en, GLCall.clear :: rest => en && clearGuarded en rest
  | en, _ :: rest => clearGuarded en rest

/-- A 2D point over the reals, for the GameObject model. -/
structure Vec2R where
  x : ℝ
  y : ℝ

/-- The Transform of a renderable, over the reals: position, rotation and
size, as game_object.js queries them. -/
structure XformR where
  mPosition : Vec2R
  mRotationInRad : ℝ
  mWidth : ℝ
  mHeight : ℝ

/-- An axis-aligned bounding box over the reals, constructed from (center,
width, height) as in GameObject.getBBox. -/
structure BBoxR where
  mCenter : Vec2R
  mWidth : ℝ
  mHeight : ℝ

/-- Modelled from the spec: the intersects-bound boolean query of the
BoundingBox collaborator (bounding_box.js is not under src/): the two boxes
strictly overlap on both axes. -/
def BBoxR.intersectsBoundP (a b : BBoxR) : Prop :=
  a.mCenter.x - a.mWidth / 2 < b.mCenter.x + b.mWidth / 2 ∧
  a.mCenter.x + a.mWidth / 2 > b.mCenter.x - b.mWidth / 2 ∧
  a.mCenter.y - a.mHeight / 2 < b.mCenter.y + b.mHeight / 2 ∧
  a.mCenter.y + a.mHeight / 2 > b.mCenter.y - b.mHeight / 2

/-- A renderable as game_object.js sees it: its transform, and the optional
per-pixel-touch capability.  Modelled from the spec: concrete texture
renderables are not under src/, so the capability, when present, is an
abstract boolean test of the other transform and the touch position. -/
structure Renderable where
  mXform : XformR
  pixelTouchFn : Option (XformR → Vec2R → Bool)

/-- The renderable accessor for its transform. -/
def Renderable.getXform (r : Renderable) : XformR := r.mXform

/-- The fields of class GameObject of game_object.js.  The rigid body is a
collaborator only updated and drawn, held as an opaque option. -/
structure GameObject where
  mRenderComponent : Renderable
  mVisible : Bool
  mCurrentFrontDir : ℝ × ℝ
  mRigidBody : Option Unit
  mDrawRenderable : Bool
  mDrawRigidShape : Bool

/-- The GameObject constructor: visible, front direction (0, 1), no rigid
body, renderable drawn, rigid shape not drawn. -/
def GameObject.new (renderable : Renderable) : GameObject :=
  ⟨renderable, true, (0, 1), none, true, false⟩

/-- gl-matrix vec2.normalize: with len the squared length of the input, the
output is the input times 1/sqrt(len) when len is positive, else the input
times len (which is then zero). -/
noncomputable def vec2normalize (f : ℝ × ℝ) : ℝ × ℝ :=
  let len := f.1 * f.1 + f.2 * f.2
  if 0 < len then (f.1 * (1 / Real.sqrt len), f.2 * (1 / Real.sqrt len))
  else (f.1 * len, f.2 * len)

/-- GameObject.setCurrentFrontDir: stores the normalized input. -/
noncomputable def GameObject.setCurrentFrontDir (g : GameObject) (f : ℝ × ℝ) :
    GameObject :=
  { g with mCurrentFrontDir := vec2normalize f }

/-- GameObject.getCurrentFrontDir. -/
def GameObject.getCurrentFrontDir (g : GameObject) : ℝ × ℝ :=
  g.mCurrentFrontDir

/-- GameObject.setVisibility. -/
def GameObject.setVisibility (g : GameObject) (f : Bool) : GameObject :=
  { g with mVisible := f }

/-- GameObject.setRigidBody. -/
def GameObject.setRigidBody (g : GameObject) (r : Option Unit) : GameObject :=
  { g with mRigidBody := r }

/-- GameObject.toggleDrawRenderable. -/
def GameObject.toggleDrawRenderable (g : GameObject) : GameObject :=
  { g with mDrawRenderable := !g.mDrawRenderable }

/-- GameObject.toggleDrawRigidShape. -/
def GameObject.toggleDrawRigidShape (g : GameObject) : GameObject :=
  { g with mDrawRigidShape := !g.mDrawRigidShape }

/-- GameObject.getBBox: a fresh bounding box from the transform of the
renderable. -/
def GameObject.getBBox (g : GameObject) : BBoxR :=
  ⟨g.mRenderComponent.getXform.mPosition, g.mRenderComponent.getXform.mWidth,
   g.mRenderComponent.getXform.mHeight⟩

/-- The mutating operations of a GameObject that a client can interleave. -/
inductive GOOp where
  | setVisibility (f : Bool)
  | setCurrentFrontDir (f : ℝ × ℝ)
  | setRigidBody (r : Option Unit)
  | toggleDrawRenderable
  | toggleDrawRigidShape

/-- Apply one operation to a game object. -/
noncomputable def GameObject.applyOp (g : GameObject) : GOOp → GameObject
  | GOOp.setVisibility f => g.setVisibility f
  | GOOp.setCurrentFrontDir f => g.setCurrentFrontDir f
  | GOOp.setRigidBody r => g.setRigidBody r
  | GOOp.toggleDrawRenderable => g.toggleDrawRenderable
  | GOOp.toggleDrawRigidShape => g.toggleDrawRigidShape

/-- Apply a sequence of operations in order. -/
noncomputable def GameObject.applyOps (g : GameObject) (ops : List GOOp) :
    GameObject :=
  ops.foldl GameObject.applyOp g

/-- The observable side effects of GameObject.pixelTouches on the two
renderables: the setColorArray preparations and the per-pixel test itself. -/
inductive PixEvent where
  | setColorArrayCall
  | perPixelTest
deriving DecidableEq

section

open Classical

/-- GameObject.pixelTouches (lines 134 to 167 of game_object.js): only when
both renderables have the per-pixel capability does it run the broad-phase
test (bounding boxes when neither is rotated, enclosing circles otherwise)
and, on overlap, prepare both color arrays and run the per-pixel test;
otherwise it returns false having touched neither renderable.  The returned
list records the side effects performed. -/
noncomputable def GameObject.pixelTouches (g other : GameObject)
    (wcTouchPos : Vec2R) : Bool × List PixEvent :=
  match g.mRenderComponent.pixelTouchFn, other.mRenderComponent.pixelTouchFn with
  | some f, some _ =>
    if g.mRenderComponent.getXform.mRotationInRad = 0 ∧
        other.mRenderComponent.getXform.mRotationInRad = 0 then
      if (other.getBBox).intersectsBoundP g.getBBox then
        (f other.mRenderComponent.getXform wcTouchPos,
         [PixEvent.setColorArrayCall, PixEvent.setColorArrayCall,
          PixEvent.perPixelTest])
      else (false, [])
    else
      let mySize := (g.mRenderComponent.getXform.mWidth,
        g.mRenderComponent.getXform.mHeight)
      let otherSize := (other.mRenderComponent.getXform.mWidth,
        other.mRenderComponent.getXform.mHeight)
      let myR := Real.sqrt (1 / 2 * mySize.1 * (1 / 2 * mySize.1) +
        1 / 2 * mySize.2 * (1 / 2 * mySize.2))
      let otherR := Real.sqrt (1 / 2 * otherSize.1 * (1 / 2 * otherSize.1) +
        1 / 2 * otherSize.2 * (1 / 2 * otherSize.2))
      let dx := g.mRenderComponent.getXform.mPosition.x -
        other.mRenderComponent.getXform.mPosition.x
      let dy := g.mRenderComponent.getXform.mPosition.y -
        other.mRenderComponent.getXform.mPosition.y
      if Real.sqrt (dx * dx + dy * dy) < myR + otherR then
        (f other.mRenderComponent.getXform wcTouchPos,
         [PixEvent.setColorArrayCall, PixEvent.setColorArrayCall,
          PixEvent.perPixelTest])
      else (false, [])
  | _, _ => (false, [])

end

/-- A raw 640 x 480 viewport rectangle at the origin. -/
def arr0 : Arr4 := ![0, 0, 640, 480]

/-- A camera built by the constructor: center (0,0), width 20, viewport
[0,0,640,480], bound 0 (the documented scenario configuration). -/
def cam0 : Camera := (Camera.new ⟨0, 0⟩ 20 arr0 (some 0) Store.empty).1

/-- The store produced while constructing cam0. -/
def st0 : Store := (Camera.new ⟨0, 0⟩ 20 arr0 (some 0) Store.empty).2

/-- A camera with a large viewport bound of 100 (inset viewport 440 x 280). -/
def cam2 : Camera := (Camera.new ⟨0, 0⟩ 20 arr0 (some 100) Store.empty).1

/-- The store produced while constructing cam2. -/
def st2 : Store := (Camera.new ⟨0, 0⟩ 20 arr0 (some 100) Store.empty).2

/-- cam0 with an active shake collaborator whose current center is (3, 4). -/
def cam3 : Camera := { cam0 with mCameraShake := some ⟨3, 4⟩ }

/-- The scenario object: position (11, 0), width 2, height 2. -/
def xfScenario : Xform := ⟨⟨11, 0⟩, 2, 2⟩

/-- An object wider than the world window: position (0, 0), width 40. -/
def xfWide : Xform := ⟨⟨0, 0⟩, 40, 2⟩

/-- An object wider than the world window and off to the right: position
(11, 0), width 30. -/
def xfOsc : Xform := ⟨⟨11, 0⟩, 30, 2⟩

/-- A renderable without the per-pixel-touch capability. -/
noncomputable def ren0 : Renderable := ⟨⟨⟨0, 0⟩, 0, 1, 1⟩, none⟩

/-- A game object over ren0. -/
noncomputable def go0 : GameObject := GameObject.new ren0

/-! ## Theorems -/

/-- Reading back the array just written at the same reference. -/
theorem Store.read_writeIdx_same (s : Store) (r : ℕ) (i : Fin 4) (v : ℚ) :
    (Store.writeIdx s r i v).read r = Function.update (s.read r) i v := by
  simp [Store.writeIdx, Store.read]

/-- Writing through one reference leaves every other array unchanged. -/
theorem Store.read_writeIdx_other (s : Store) (r r2 : ℕ) (i : Fin 4) (v : ℚ)
    (h : r2 ≠ r) : (Store.writeIdx s r i v).read r2 = s.read r2 := by
  simp [Store.writeIdx, Store.read, h]

/-- In-place writes allocate nothing. -/
theorem Store.writeIdx_next (s : Store) (r : ℕ) (i : Fin 4) (v : ℚ) :
    (Store.writeIdx s r i v).next = s.next := rfl

/-- Reading the freshly allocated array gives back its contents. -/
theorem Store.read_alloc_new (s : Store) (a : Arr4) :
    (s.alloc a).2.read (s.alloc a).1 = a := by
  simp [Store.alloc, Store.read]

/-- Allocation leaves previously allocated arrays unchanged. -/
theorem Store.read_alloc_other (s : Store) (a : Arr4) (r : ℕ)
    (h : r ≠ s.next) : (s.alloc a).2.read r = s.read r := by
  simp [Store.alloc, Store.read, h]

/-- setViewport mutates arrays in place and allocates nothing. -/
theorem Camera.setViewport_next (c : Camera) (s : Store) (arr : Arr4)
    (b : Option ℚ) : (c.setViewport s arr b).next = s.next := rfl

/-- C7: every setViewAndCameraMatrix issues, in this exact order, the pixel
viewport (inset rectangle), the scissor rectangle (un-inset rectangle), the
clear color with exactly the four stored background-color components,
enable scissor test, clear, disable scissor test; and the clear is never
issued while the scissor test is disabled. -/
theorem setViewAndCameraMatrix_call_order (c : Camera) (s : Store) :
    (c.setViewAndCameraMatrix s).2 =
      [GLCall.viewport (s.read c.mViewport 0) (s.read c.mViewport 1)
        (s.read c.mViewport 2) (s.read c.mViewport 3),
       GLCall.scissor (s.read c.mScissorBound 0) (s.read c.mScissorBound 1)
        (s.read c.mScissorBound 2) (s.read c.mScissorBound 3),
       GLCall.clearColor (s.read c.mBGColor 0) (s.read c.mBGColor 1)
        (s.read c.mBGColor 2) (s.read c.mBGColor 3),
       GLCall.enableScissorTest, GLCall.clear, GLCall.disableScissorTest] ∧
    clearGuarded false (c.setViewAndCameraMatrix s).2 = true :=
  ⟨rfl, rfl⟩

/-- C10: setBackgroundColor stores the callers array reference and
getBackgroundColor returns that same reference, not a copy; hence mutating
the returned array changes the color the next draw-prep clear uses. -/
theorem getBackgroundColor_by_reference (cam : Camera) (r : ℕ) (s : Store)
    (i : Fin 4) (v : ℚ) :
    (cam.setBackgroundColor r).getBackgroundColor = r ∧
    ((cam.setBackgroundColor r).setViewAndCameraMatrix
        (Store.writeIdx s ((cam.setBackgroundColor r).getBackgroundColor) i v)).2[2]? =
      some (GLCall.clearColor (Function.update (s.read r) i v 0)
        (Function.update (s.read r) i v 1) (Function.update (s.read r) i v 2)
        (Function.update (s.read r) i v 3)) := by
  refine ⟨rfl, ?_⟩
  simp [Camera.setViewAndCameraMatrix, Camera.setBackgroundColor,
    Camera.getBackgroundColor, Store.read, Store.writeIdx]

/-- C5: after setViewport with a raw rectangle and a bound, getViewport
returns a fresh array holding exactly the raw rectangle; mutating the
returned array changes neither the stored pixel viewport nor the stored
scissor rectangle; and the stored pixel viewport is the raw rectangle inset
by the bound on each side. -/
theorem setViewport_getViewport_copy (c : Camera) (s : Store) (arr : Arr4)
    (bound : ℚ) (hvp : c.mViewport < s.next) (hsc : c.mScissorBound < s.next)
    (hne : c.mViewport ≠ c.mScissorBound) :
    (∀ i : Fin 4,
      ((c.getViewport (c.setViewport s arr (some bound))).2).read
        (c.getViewport (c.setViewport s arr (some bound))).1 i = arr i) ∧
    (∀ (i : Fin 4) (v : ℚ),
      (Store.writeIdx (c.getViewport (c.setViewport s arr (some bound))).2
          (c.getViewport (c.setViewport s arr (some bound))).1 i v).read
          c.mViewport =
        ((c.getViewport (c.setViewport s arr (some bound))).2).read c.mViewport ∧
      (Store.writeIdx (c.getViewport (c.setViewport s arr (some bound))).2
          (c.getViewport (c.setViewport s arr (some bound))).1 i v).read
          c.mScissorBound =
        ((c.getViewport (c.setViewport s arr (some bound))).2).read
          c.mScissorBound) ∧
    ((c.setViewport s arr (some bound)).read c.mViewport 0 = arr 0 + bound ∧
     (c.setViewport s arr (some bound)).read c.mViewport 1 = arr 1 + bound ∧
     (c.setViewport s arr (some bound)).read c.mViewport 2 = arr 2 - 2 * bound ∧
     (c.setViewport s arr (some bound)).read c.mViewport 3 = arr 3 - 2 * bound) := by
  refine ⟨?_, ?_, ?_⟩
  · intro i
    fin_cases i <;>
      simp [Camera.getViewport, Store.alloc, Store.read, Camera.setViewport,
        Store.writeIdx, Function.update]
  · intro i v
    constructor
    · exact Store.read_writeIdx_other _ _ _ _ _ (Nat.ne_of_lt hvp)
    · exact Store.read_writeIdx_other _ _ _ _ _ (Nat.ne_of_lt hsc)
  · refine ⟨?_, ?_, ?_, ?_⟩ <;>
      simp [Camera.setViewport, Store.read, Store.writeIdx, Function.update, hne]

/-- Witness for C5 at the constructed camera cam0 with bound 5. -/
theorem setViewport_getViewport_copy_witness :
    (cam0.mViewport < st0.next ∧ cam0.mScissorBound < st0.next ∧
      cam0.mViewport ≠ cam0.mScissorBound) ∧
    (∀ i : Fin 4,
      ((cam0.getViewport (cam0.setViewport st0 arr0 (some 5))).2).read
        (cam0.getViewport (cam0.setViewport st0 arr0 (some 5))).1 i = arr0 i) :=
  ⟨⟨by decide, by decide, by decide⟩,
   (setViewport_getViewport_copy cam0 st0 arr0 5 (by decide) (by decide)
     (by decide)).1⟩

/-- C4 (amended): getWCHeight is the stored width times the aspect ratio of
the stored inset pixel viewport, the raw rectangle shrunk by the bound on
each side; this is the getViewport rectangle ratio only when the bound is
zero. -/
theorem getWCHeight_uses_inset_viewport (c : Camera) (s : Store) (arr : Arr4)
    (b : ℚ) (hne : c.mViewport ≠ c.mScissorBound) :
    Camera.getWCHeight c (c.setViewport s arr (some b)) =
      c.getWCWidth * ((arr 3 - 2 * b) / (arr 2 - 2 * b)) := by
  simp [Camera.getWCHeight, Camera.getWCWidth, CameraState.getWidth,
    Camera.setViewport, Store.read, Store.writeIdx, Function.update, hne]

/-- Witness for the amended C4 at cam0 with bound 0. -/
theorem getWCHeight_uses_inset_viewport_witness :
    cam0.mViewport ≠ cam0.mScissorBound ∧
    Camera.getWCHeight cam0 (cam0.setViewport st0 arr0 (some 0)) =
      cam0.getWCWidth * ((arr0 3 - 2 * 0) / (arr0 2 - 2 * 0)) :=
  ⟨by decide,
   getWCHeight_uses_inset_viewport cam0 st0 arr0 0 (by decide)⟩

/-- Counterexample to C4 as stated: with bound 100 the world height is
derived from the inset 440 x 280 viewport (giving 20 * 280/440), not from
the 640 x 480 rectangle that getViewport reports (which would give 15). -/
theorem getWCHeight_getViewport_counterexample :
    Camera.getWCHeight cam2 st2 ≠
      cam2.getWCWidth *
        (((cam2.getViewport st2).2).read (cam2.getViewport st2).1 3 /
         ((cam2.getViewport st2).2).read (cam2.getViewport st2).1 2) := by
  simp [Camera.getWCHeight, Camera.getWCWidth, CameraState.getWidth,
    Camera.getViewport, cam2, st2, arr0, Camera.new, Camera.setViewport,
    Store.writeIdx, Store.read, Store.alloc, Store.empty, Function.update]
  norm_num

/-- Multiplying by the identity on the left changes nothing. -/
theorem matMul_create_left (a : Mat4) : matMul mat4create a = a := by
  cases a
  simp [matMul, mat4create]

/-- C1: after setViewAndCameraMatrix the camera matrix is the scale by
(2/wcWidth, 2/wcHeight, 1/cameraZ) composed with the translation by
(-effectiveCenter.x, -effectiveCenter.y, -cameraZ/2); it maps the effective
center to x = 0 and y = 0 in matrix space and maps the effective center
plus (width/2, 0) to x = 1. -/
theorem setViewAndCameraMatrix_matrix (c : Camera) (s : Store)
    (hW : 0 < c.getWCWidth) (hvw : 0 < s.read c.mViewport 2)
    (hvh : 0 < s.read c.mViewport 3) :
    (c.setViewAndCameraMatrix s).1.mCameraMatrix =
      matMul (scaleMat (2 / c.getWCWidth, 2 / c.getWCHeight s, 1 / c.kCameraZ))
        (translateMat (-(c.effectiveCenter).x, -(c.effectiveCenter).y,
          -c.kCameraZ / 2)) ∧
    (mulVec4 ((c.setViewAndCameraMatrix s).1.mCameraMatrix)
        ⟨(c.effectiveCenter).x, (c.effectiveCenter).y, 0, 1⟩).x = 0 ∧
    (mulVec4 ((c.setViewAndCameraMatrix s).1.mCameraMatrix)
        ⟨(c.effectiveCenter).x, (c.effectiveCenter).y, 0, 1⟩).y = 0 ∧
    (mulVec4 ((c.setViewAndCameraMatrix s).1.mCameraMatrix)
        ⟨(c.effectiveCenter).x + c.getWCWidth / 2, (c.effectiveCenter).y, 0,
          1⟩).x = 1 := by
  have hW0 : c.getWCWidth ≠ 0 := ne_of_gt hW
  have hm : (c.setViewAndCameraMatrix s).1.mCameraMatrix =
      matMul (scaleMat (2 / c.getWCWidth, 2 / c.getWCHeight s, 1 / c.kCameraZ))
        (translateMat (-(c.effectiveCenter).x, -(c.effectiveCenter).y,
          -c.kCameraZ / 2)) := by
    simp [Camera.setViewAndCameraMatrix, mat4scale, mat4translate,
      matMul_create_left]
  refine ⟨hm, ?_, ?_, ?_⟩
  · rw [hm]; simp [matMul, scaleMat, translateMat, mulVec4]
  · rw [hm]; simp [matMul, scaleMat, translateMat, mulVec4]
  · rw [hm]; simp [matMul, scaleMat, translateMat, mulVec4]
    field_simp
    ring

/-- Witness for C1 at the constructed camera cam0. -/
theorem setViewAndCameraMatrix_matrix_witness :
    (0 < cam0.getWCWidth ∧ 0 < st0.read cam0.mViewport 2 ∧
      0 < st0.read cam0.mViewport 3) ∧
    (mulVec4 ((cam0.setViewAndCameraMatrix st0).1.mCameraMatrix)
      ⟨(cam0.effectiveCenter).x + cam0.getWCWidth / 2, (cam0.effectiveCenter).y,
        0, 1⟩).x = 1 := by
  have h1 : 0 < cam0.getWCWidth := by
    simp [cam0, Camera.new, Camera.getWCWidth, CameraState.getWidth]
  have h2 : 0 < st0.read cam0.mViewport 2 := by
    simp [cam0, st0, arr0, Camera.new, Camera.setViewport, Store.writeIdx,
      Store.read, Store.alloc, Store.empty, Function.update]
  have h3 : 0 < st0.read cam0.mViewport 3 := by
    simp [cam0, st0, arr0, Camera.new, Camera.setViewport, Store.writeIdx,
      Store.read, Store.alloc, Store.empty, Function.update]
  exact ⟨⟨h1, h2, h3⟩,
    (setViewAndCameraMatrix_matrix cam0 st0 h1 h2 h3).2.2.2⟩

/-- C6: setViewAndCameraMatrix leaves the stored CameraState (in particular
the logical center reported by getWCCenter) unchanged, and builds the
matrix from the shake collaborator center when one is present, else from
the stored center. -/
theorem setViewAndCameraMatrix_effective_center (c : Camera) (s : Store) :
    (c.setViewAndCameraMatrix s).1.getWCCenter = c.getWCCenter ∧
    (c.setViewAndCameraMatrix s).1.mCameraState = c.mCameraState ∧
    (∀ sh : Vec2, c.mCameraShake = some sh →
      (c.setViewAndCameraMatrix s).1.mCameraMatrix =
        matMul (scaleMat (2 / c.getWCWidth, 2 / c.getWCHeight s, 1 / c.kCameraZ))
          (translateMat (-sh.x, -sh.y, -c.kCameraZ / 2))) ∧
    (c.mCameraShake = none →
      (c.setViewAndCameraMatrix s).1.mCameraMatrix =
        matMul (scaleMat (2 / c.getWCWidth, 2 / c.getWCHeight s, 1 / c.kCameraZ))
          (translateMat (-(c.getWCCenter).x, -(c.getWCCenter).y,
            -c.kCameraZ / 2))) := by
  refine ⟨rfl, rfl, ?_, ?_⟩
  · intro sh h
    simp [Camera.setViewAndCameraMatrix, mat4scale, mat4translate,
      matMul_create_left, Camera.effectiveCenter, h]
  · intro h
    simp [Camera.setViewAndCameraMatrix, mat4scale, mat4translate,
      matMul_create_left, Camera.effectiveCenter, h]

/-- Witness for C6 at cam3, whose shake collaborator reports center (3, 4). -/
theorem setViewAndCameraMatrix_effective_center_witness :
    cam3.mCameraShake = some ⟨3, 4⟩ ∧
    (cam3.setViewAndCameraMatrix st0).1.getWCCenter = cam3.getWCCenter ∧
    (cam3.setViewAndCameraMatrix st0).1.mCameraMatrix =
      matMul (scaleMat (2 / cam3.getWCWidth, 2 / cam3.getWCHeight st0,
          1 / cam3.kCameraZ))
        (translateMat (-(3 : ℚ), -(4 : ℚ), -cam3.kCameraZ / 2)) :=
  ⟨rfl, (setViewAndCameraMatrix_effective_center cam3 st0).1,
   (setViewAndCameraMatrix_effective_center cam3 st0).2.2.1 ⟨3, 4⟩ rfl⟩

/-- The collide status is the containment value exactly when no edge is
strictly violated. -/
theorem boundCollideStatus_inside_iff (cb ob : BoundingBox) :
    cb.boundCollideStatus ob = eInside ↔
      (¬ ob.minX < cb.minX ∧ ¬ ob.maxX > cb.maxX ∧ ¬ ob.minY < cb.minY ∧
        ¬ ob.maxY > cb.maxY) := by
  by_cases h1 : ob.minX < cb.minX <;> by_cases h2 : ob.maxX > cb.maxX <;>
    by_cases h3 : ob.minY < cb.minY <;> by_cases h4 : ob.maxY > cb.maxY <;>
    simp [BoundingBox.boundCollideStatus, eInside, eCollideLeft, eCollideRight,
      eCollideBottom, eCollideTop, h1, h2, h3, h4] <;> decide

/-- The left bit of the collide status is set exactly when the left edge is
violated. -/
theorem boundCollideStatus_and_left (cb ob : BoundingBox) :
    cb.boundCollideStatus ob &&& eCollideLeft ≠ 0 ↔ ob.minX < cb.minX := by
  by_cases h1 : ob.minX < cb.minX <;> by_cases h2 : ob.maxX > cb.maxX <;>
    by_cases h3 : ob.minY < cb.minY <;> by_cases h4 : ob.maxY > cb.maxY <;>
    simp [BoundingBox.boundCollideStatus, eInside, eCollideLeft, eCollideRight,
      eCollideBottom, eCollideTop, h1, h2, h3, h4] <;> decide

/-- The right bit of the collide status is set exactly when the right edge
is violated. -/
theorem boundCollideStatus_and_right (cb ob : BoundingBox) :
    cb.boundCollideStatus ob &&& eCollideRight ≠ 0 ↔ ob.maxX > cb.maxX := by
  by_cases h1 : ob.minX < cb.minX <;> by_cases h2 : ob.maxX > cb.maxX <;>
    by_cases h3 : ob.minY < cb.minY <;> by_cases h4 : ob.maxY > cb.maxY <;>
    simp [BoundingBox.boundCollideStatus, eInside, eCollideLeft, eCollideRight,
      eCollideBottom, eCollideTop, h1, h2, h3, h4] <;> decide

/-- The bottom bit of the collide status is set exactly when the bottom edge
is violated. -/
theorem boundCollideStatus_and_bottom (cb ob : BoundingBox) :
    cb.boundCollideStatus ob &&& eCollideBottom ≠ 0 ↔ ob.minY < cb.minY := by
  by_cases h1 : ob.minX < cb.minX <;> by_cases h2 : ob.maxX > cb.maxX <;>
    by_cases h3 : ob.minY < cb.minY <;> by_cases h4 : ob.maxY > cb.maxY <;>
    simp [BoundingBox.boundCollideStatus, eInside, eCollideLeft, eCollideRight,
      eCollideBottom, eCollideTop, h1, h2, h3, h4] <;> decide

/-- The top bit of the collide status is set exactly when the top edge is
violated. -/
theorem boundCollideStatus_and_top (cb ob : BoundingBox) :
    cb.boundCollideStatus ob &&& eCollideTop ≠ 0 ↔ ob.maxY > cb.maxY := by
  by_cases h1 : ob.minX < cb.minX <;> by_cases h2 : ob.maxX > cb.maxX <;>
    by_cases h3 : ob.minY < cb.minY <;> by_cases h4 : ob.maxY > cb.maxY <;>
    simp [BoundingBox.boundCollideStatus, eInside, eCollideLeft, eCollideRight,
      eCollideBottom, eCollideTop, h1, h2, h3, h4] <;> decide

/-- The left bit of the collide status is clear exactly when the left edge
is not violated. -/
theorem boundCollideStatus_and_left_eq_zero (cb ob : BoundingBox) :
    cb.boundCollideStatus ob &&& eCollideLeft = 0 ↔ ¬ ob.minX < cb.minX := by
  by_cases h1 : ob.minX < cb.minX <;> by_cases h2 : ob.maxX > cb.maxX <;>
    by_cases h3 : ob.minY < cb.minY <;> by_cases h4 : ob.maxY > cb.maxY <;>
    simp [BoundingBox.boundCollideStatus, eInside, eCollideLeft, eCollideRight,
      eCollideBottom, eCollideTop, h1, h2, h3, h4] <;> decide

/-- The bottom bit of the collide status is clear exactly when the bottom
edge is not violated. -/
theorem boundCollideStatus_and_bottom_eq_zero (cb ob : BoundingBox) :
    cb.boundCollideStatus ob &&& eCollideBottom = 0 ↔ ¬ ob.minY < cb.minY := by
  by_cases h1 : ob.minX < cb.minX <;> by_cases h2 : ob.maxX > cb.maxX <;>
    by_cases h3 : ob.minY < cb.minY <;> by_cases h4 : ob.maxY > cb.maxY <;>
    simp [BoundingBox.boundCollideStatus, eInside, eCollideLeft, eCollideRight,
      eCollideBottom, eCollideTop, h1, h2, h3, h4] <;> decide

/-- The status is not the containment value exactly when some edge is
violated. -/
theorem boundCollideStatus_ne_inside_iff (cb ob : BoundingBox) :
    cb.boundCollideStatus ob ≠ eInside ↔
      (ob.minX < cb.minX ∨ ob.maxX > cb.maxX ∨ ob.minY < cb.minY ∨
        ob.maxY > cb.maxY) := by
  by_cases h1 : ob.minX < cb.minX <;> by_cases h2 : ob.maxX > cb.maxX <;>
    by_cases h3 : ob.minY < cb.minY <;> by_cases h4 : ob.maxY > cb.maxY <;>
    simp [BoundingBox.boundCollideStatus, eInside, eCollideLeft, eCollideRight,
      eCollideBottom, eCollideTop, h1, h2, h3, h4] <;> decide

/-- Closed form of the transform returned by clampAtBoundary: per axis, the
low-edge clamp wins over the high-edge clamp because the source writes top
then bottom, and right then left. -/
theorem clampAtBoundary_snd (c : Camera) (s : Store) (x : Xform) (z : ℚ) :
    (c.clampAtBoundary s x z).2 =
      { x with mPosition :=
        ⟨if x.mPosition.x - x.mWidth / 2 < (c.getWCCenter).x - z * c.getWCWidth / 2 then
            (c.getWCCenter).x - z * c.getWCWidth / 2 + x.mWidth / 2
          else if x.mPosition.x + x.mWidth / 2 > (c.getWCCenter).x + z * c.getWCWidth / 2 then
            (c.getWCCenter).x + z * c.getWCWidth / 2 - x.mWidth / 2
          else x.mPosition.x,
         if x.mPosition.y - x.mHeight / 2 < (c.getWCCenter).y - z * c.getWCHeight s / 2 then
            (c.getWCCenter).y - z * c.getWCHeight s / 2 + x.mHeight / 2
          else if x.mPosition.y + x.mHeight / 2 > (c.getWCCenter).y + z * c.getWCHeight s / 2 then
            (c.getWCCenter).y + z * c.getWCHeight s / 2 - x.mHeight / 2
          else x.mPosition.y⟩ } := by
  by_cases h1 : x.mPosition.x - x.mWidth / 2 < (c.getWCCenter).x - z * c.getWCWidth / 2 <;>
  by_cases h2 : x.mPosition.x + x.mWidth / 2 > (c.getWCCenter).x + z * c.getWCWidth / 2 <;>
  by_cases h3 : x.mPosition.y - x.mHeight / 2 < (c.getWCCenter).y - z * c.getWCHeight s / 2 <;>
  by_cases h4 : x.mPosition.y + x.mHeight / 2 > (c.getWCCenter).y + z * c.getWCHeight s / 2 <;>
  simp [Camera.clampAtBoundary, Camera.collideWCBound,
    boundCollideStatus_ne_inside_iff, boundCollideStatus_and_left,
    boundCollideStatus_and_right, boundCollideStatus_and_bottom,
    boundCollideStatus_and_top, BoundingBox.minX, BoundingBox.maxX,
    BoundingBox.minY, BoundingBox.maxY, h1, h2, h3, h4]

/-- An already-inside transform is returned unchanged by clampAtBoundary. -/
theorem clampAtBoundary_of_inside (c : Camera) (s : Store) (x : Xform) (z : ℚ)
    (h : c.collideWCBound s x z = eInside) :
    (c.clampAtBoundary s x z).2 = x := by
  simp [Camera.clampAtBoundary, h]

/-- After one clamp, an object that fits inside the zone window is fully
inside. -/
theorem collideWCBound_after_clamp (c : Camera) (s : Store) (x : Xform) (z : ℚ)
    (hw : x.mWidth ≤ z * c.getWCWidth) (hh : x.mHeight ≤ z * c.getWCHeight s) :
    c.collideWCBound s ((c.clampAtBoundary s x z).2) z = eInside := by
  rw [clampAtBoundary_snd]
  simp only [Camera.collideWCBound]
  rw [boundCollideStatus_inside_iff]
  simp only [BoundingBox.minX, BoundingBox.maxX, BoundingBox.minY,
    BoundingBox.maxY]
  refine ⟨?_, ?_, ?_, ?_⟩ <;> push_neg <;> split_ifs <;> linarith

/-- C3 (amended): clampAtBoundary is idempotent on the position for every
object that fits within the zone window (width at most zone times the world
width, height at most zone times the world height); an object larger than
the window can oscillate between opposite edges. -/
theorem clampAtBoundary_idem (c : Camera) (s : Store) (x : Xform) (z : ℚ)
    (hw : x.mWidth ≤ z * c.getWCWidth) (hh : x.mHeight ≤ z * c.getWCHeight s) :
    ((c.clampAtBoundary s ((c.clampAtBoundary s x z).2) z).2).mPosition =
      ((c.clampAtBoundary s x z).2).mPosition := by
  rw [clampAtBoundary_of_inside c s _ z (collideWCBound_after_clamp c s x z hw hh)]

/-- Witness for the amended C3: the 2 x 2 scenario object at (11, 0) is
stable under a second clamp. -/
theorem clampAtBoundary_idem_witness :
    (xfScenario.mWidth ≤ 1 * cam0.getWCWidth ∧
      xfScenario.mHeight ≤ 1 * Camera.getWCHeight cam0 st0) ∧
    ((cam0.clampAtBoundary st0 ((cam0.clampAtBoundary st0 xfScenario 1).2) 1).2).mPosition =
      ((cam0.clampAtBoundary st0 xfScenario 1).2).mPosition := by
  have hw : xfScenario.mWidth ≤ 1 * cam0.getWCWidth := by
    simp [xfScenario, cam0, Camera.new, Camera.getWCWidth, CameraState.getWidth]
    norm_num
  have hh : xfScenario.mHeight ≤ 1 * Camera.getWCHeight cam0 st0 := by
    simp [xfScenario, Camera.getWCHeight, CameraState.getWidth, cam0, st0, arr0,
      Camera.new, Camera.setViewport, Store.writeIdx, Store.read, Store.alloc,
      Store.empty, Function.update]
    norm_num
  exact ⟨⟨hw, hh⟩, clampAtBoundary_idem cam0 st0 xfScenario 1 hw hh⟩

/-- Counterexample to C3 as stated: a 30-wide object on the 20-wide world
window reaches x = -5 after one clamp and x = 5 after a second clamp, so
two clamps do not agree with one. -/
theorem clampAtBoundary_idem_counterexample :
    ((cam0.clampAtBoundary st0 ((cam0.clampAtBoundary st0 xfOsc 1).2) 1).2).mPosition ≠
      ((cam0.clampAtBoundary st0 xfOsc 1).2).mPosition := by
  have h1 : (cam0.clampAtBoundary st0 xfOsc 1).2 = (⟨⟨-5, 0⟩, 30, 2⟩ : Xform) := by
    rw [clampAtBoundary_snd]
    simp [Camera.getWCCenter, Camera.getWCWidth, Camera.getWCHeight,
      CameraState.getCenter, CameraState.getWidth, cam0, st0, arr0, xfOsc,
      Camera.new, Camera.setViewport, Store.writeIdx, Store.read, Store.alloc,
      Store.empty, Function.update]
    norm_num
  have h2 : (cam0.clampAtBoundary st0 (⟨⟨-5, 0⟩, 30, 2⟩ : Xform) 1).2 =
      (⟨⟨5, 0⟩, 30, 2⟩ : Xform) := by
    rw [clampAtBoundary_snd]
    simp [Camera.getWCCenter, Camera.getWCWidth, Camera.getWCHeight,
      CameraState.getCenter, CameraState.getWidth, cam0, st0, arr0,
      Camera.new, Camera.setViewport, Store.writeIdx, Store.read, Store.alloc,
      Store.empty, Function.update]
    norm_num
  rw [h1, h2]
  simp
  norm_num

/-- C2 (amended): clampAtBoundary returns the collide status of the
pre-clamp transform, never changes the size, and sets each violated edge to
the exact on-edge position, where, when both edges of one axis are violated
(possible only for objects larger than the zone window), the edge written
last in the source wins: left over right and bottom over top. -/
theorem clampAtBoundary_spec (c : Camera) (s : Store) (x : Xform) (z : ℚ) :
    (c.clampAtBoundary s x z).1 = c.collideWCBound s x z ∧
    ((c.clampAtBoundary s x z).2).mWidth = x.mWidth ∧
    ((c.clampAtBoundary s x z).2).mHeight = x.mHeight ∧
    (c.collideWCBound s x z &&& eCollideLeft ≠ 0 →
      ((c.clampAtBoundary s x z).2).mPosition.x =
        (c.getWCCenter).x - z * c.getWCWidth / 2 + x.mWidth / 2) ∧
    (c.collideWCBound s x z &&& eCollideRight ≠ 0 ∧
        c.collideWCBound s x z &&& eCollideLeft = 0 →
      ((c.clampAtBoundary s x z).2).mPosition.x =
        (c.getWCCenter).x + z * c.getWCWidth / 2 - x.mWidth / 2) ∧
    (c.collideWCBound s x z &&& eCollideBottom ≠ 0 →
      ((c.clampAtBoundary s x z).2).mPosition.y =
        (c.getWCCenter).y - z * c.getWCHeight s / 2 + x.mHeight / 2) ∧
    (c.collideWCBound s x z &&& eCollideTop ≠ 0 ∧
        c.collideWCBound s x z &&& eCollideBottom = 0 →
      ((c.clampAtBoundary s x z).2).mPosition.y =
        (c.getWCCenter).y + z * c.getWCHeight s / 2 - x.mHeight / 2) := by
  refine ⟨rfl, ?_⟩
  by_cases h1 : x.mPosition.x - x.mWidth / 2 < (c.getWCCenter).x - z * c.getWCWidth / 2 <;>
  by_cases h2 : x.mPosition.x + x.mWidth / 2 > (c.getWCCenter).x + z * c.getWCWidth / 2 <;>
  by_cases h3 : x.mPosition.y - x.mHeight / 2 < (c.getWCCenter).y - z * c.getWCHeight s / 2 <;>
  by_cases h4 : x.mPosition.y + x.mHeight / 2 > (c.getWCCenter).y + z * c.getWCHeight s / 2 <;>
  simp [clampAtBoundary_snd, Camera.collideWCBound,
    boundCollideStatus_and_left, boundCollideStatus_and_right,
    boundCollideStatus_and_bottom, boundCollideStatus_and_top,
    boundCollideStatus_and_left_eq_zero, boundCollideStatus_and_bottom_eq_zero,
    BoundingBox.minX, BoundingBox.maxX, BoundingBox.minY, BoundingBox.maxY,
    h1, h2, h3, h4]

/-- Witness for the amended C2: the documented scenario, a 2 x 2 object at
(11, 0) against the 20 x 15 window, reports collide-right and is clamped to
x = 9. -/
theorem clampAtBoundary_spec_witness :
    (Camera.collideWCBound cam0 st0 xfScenario 1 &&& eCollideRight ≠ 0 ∧
      Camera.collideWCBound cam0 st0 xfScenario 1 &&& eCollideLeft = 0) ∧
    (cam0.clampAtBoundary st0 xfScenario 1).1 = eCollideRight ∧
    ((cam0.clampAtBoundary st0 xfScenario 1).2).mPosition.x = 9 := by
  have hst : Camera.collideWCBound cam0 st0 xfScenario 1 = 2 := by
    simp [Camera.collideWCBound, BoundingBox.boundCollideStatus,
      BoundingBox.minX, BoundingBox.maxX, BoundingBox.minY, BoundingBox.maxY,
      Camera.getWCCenter, Camera.getWCWidth, Camera.getWCHeight,
      CameraState.getCenter, CameraState.getWidth, cam0, st0, arr0, xfScenario,
      Camera.new, Camera.setViewport, Store.writeIdx, Store.read, Store.alloc,
      Store.empty, Function.update, eCollideLeft, eCollideRight, eCollideTop,
      eCollideBottom, eInside]
    norm_num
  have hant : Camera.collideWCBound cam0 st0 xfScenario 1 &&& eCollideRight ≠ 0 ∧
      Camera.collideWCBound cam0 st0 xfScenario 1 &&& eCollideLeft = 0 := by
    rw [hst]; exact ⟨by decide, by decide⟩
  refine ⟨hant, ?_, ?_⟩
  · rw [(clampAtBoundary_spec cam0 st0 xfScenario 1).1, hst]
    rfl
  · rw [(clampAtBoundary_spec cam0 st0 xfScenario 1).2.2.2.2.1 hant]
    simp [Camera.getWCCenter, Camera.getWCWidth, CameraState.getCenter,
      CameraState.getWidth, cam0, xfScenario, Camera.new]
    norm_num

/-- Counterexample to C2 as stated: a 40-wide object centered on the 20-wide
window violates both left and right; the status has the collide-right bit,
yet the final x is 10 (the left-edge clamp, written last), not the
collide-right value -10 demanded by the claim. -/
theorem clampAtBoundary_right_counterexample :
    Camera.collideWCBound cam0 st0 xfWide 1 &&& eCollideRight ≠ 0 ∧
    ((cam0.clampAtBoundary st0 xfWide 1).2).mPosition.x = 10 ∧
    (cam0.getWCCenter).x + 1 * cam0.getWCWidth / 2 - xfWide.mWidth / 2 = -10 := by
  have hst : Camera.collideWCBound cam0 st0 xfWide 1 = 3 := by
    simp [Camera.collideWCBound, BoundingBox.boundCollideStatus,
      BoundingBox.minX, BoundingBox.maxX, BoundingBox.minY, BoundingBox.maxY,
      Camera.getWCCenter, Camera.getWCWidth, Camera.getWCHeight,
      CameraState.getCenter, CameraState.getWidth, cam0, st0, arr0, xfWide,
      Camera.new, Camera.setViewport, Store.writeIdx, Store.read, Store.alloc,
      Store.empty, Function.update, eCollideLeft, eCollideRight, eCollideTop,
      eCollideBottom, eInside]
    norm_num
    decide
  refine ⟨by rw [hst]; decide, ?_, ?_⟩
  · rw [clampAtBoundary_snd]
    simp [Camera.getWCCenter, Camera.getWCWidth, Camera.getWCHeight,
      CameraState.getCenter, CameraState.getWidth, cam0, st0, arr0, xfWide,
      Camera.new, Camera.setViewport, Store.writeIdx, Store.read, Store.alloc,
      Store.empty, Function.update]
    norm_num
  · simp [Camera.getWCCenter, Camera.getWCWidth, CameraState.getCenter,
      CameraState.getWidth, cam0, xfWide, Camera.new]
    norm_num

/-- C8: when either renderable lacks the per-pixel-touch capability,
pixelTouches returns false and performs no setColorArray preparation and no
per-pixel test on either renderable. -/
theorem pixelTouches_without_capability (g other : GameObject) (p : Vec2R)
    (h : g.mRenderComponent.pixelTouchFn = none ∨
      other.mRenderComponent.pixelTouchFn = none) :
    GameObject.pixelTouches g other p = (false, []) := by
  rcases h with h | h
  · simp [GameObject.pixelTouches, h]
  · rcases hg : g.mRenderComponent.pixelTouchFn with _ | f <;>
      simp [GameObject.pixelTouches, h, hg]

/-- Witness for C8: two game objects over a capability-free renderable. -/
theorem pixelTouches_without_capability_witness :
    (go0.mRenderComponent.pixelTouchFn = none ∨
      go0.mRenderComponent.pixelTouchFn = none) ∧
    GameObject.pixelTouches go0 go0 ⟨0, 0⟩ = (false, []) :=
  ⟨Or.inl rfl, pixelTouches_without_capability go0 go0 ⟨0, 0⟩ (Or.inl rfl)⟩

/-- Normalizing a nonzero vector yields a vector of unit squared length. -/
theorem normSq_vec2normalize (f : ℝ × ℝ) (hf : f ≠ (0, 0)) :
    (vec2normalize f).1 ^ 2 + (vec2normalize f).2 ^ 2 = 1 := by
  have hne : f.1 ≠ 0 ∨ f.2 ≠ 0 := by
    by_contra hc
    push_neg at hc
    exact hf (Prod.ext hc.1 hc.2)
  have hlen : 0 < f.1 * f.1 + f.2 * f.2 := by
    rcases hne with h | h
    · nlinarith [mul_self_pos.mpr h, mul_self_nonneg f.2]
    · nlinarith [mul_self_pos.mpr h, mul_self_nonneg f.1]
  have hs : Real.sqrt (f.1 * f.1 + f.2 * f.2) ≠ 0 :=
    ne_of_gt (Real.sqrt_pos.mpr hlen)
  have hsq : Real.sqrt (f.1 * f.1 + f.2 * f.2) ^ 2 = f.1 * f.1 + f.2 * f.2 :=
    Real.sq_sqrt hlen.le
  simp only [vec2normalize, if_pos hlen]
  field_simp
  nlinarith [hsq]

/-- The unit-front-direction invariant is preserved by every operation
sequence whose setCurrentFrontDir inputs are all nonzero. -/
theorem applyOps_frontDir_unit (ops : List GOOp) :
    ∀ g : GameObject,
      (∀ f : ℝ × ℝ, GOOp.setCurrentFrontDir f ∈ ops → f ≠ (0, 0)) →
      g.mCurrentFrontDir.1 ^ 2 + g.mCurrentFrontDir.2 ^ 2 = 1 →
      (g.applyOps ops).mCurrentFrontDir.1 ^ 2 +
        (g.applyOps ops).mCurrentFrontDir.2 ^ 2 = 1 := by
  induction ops with
  | nil => intro g _ hg; simpa [GameObject.applyOps] using hg
  | cons op t ih =>
    intro g hops hg
    have hstep : GameObject.applyOps g (op :: t) =
        GameObject.applyOps (g.applyOp op) t := rfl
    rw [hstep]
    apply ih
    · intro f hf
      exact hops f (List.mem_cons_of_mem _ hf)
    · cases op with
      | setCurrentFrontDir f =>
        have hf : f ≠ (0, 0) := hops f (List.mem_cons_self _ _)
        simpa [GameObject.applyOp, GameObject.setCurrentFrontDir] using
          normSq_vec2normalize f hf
      | setVisibility b =>
        simpa [GameObject.applyOp, GameObject.setVisibility] using hg
      | setRigidBody r =>
        simpa [GameObject.applyOp, GameObject.setRigidBody] using hg
      | toggleDrawRenderable =>
        simpa [GameObject.applyOp, GameObject.toggleDrawRenderable] using hg
      | toggleDrawRigidShape =>
        simpa [GameObject.applyOp, GameObject.toggleDrawRigidShape] using hg

/-- C9: starting from the constructor front direction (0, 1), after any
sequence of operations whose setCurrentFrontDir inputs are all nonzero,
getCurrentFrontDir reports a unit-length vector, because the setter stores
the normalized input, never the raw input. -/
theorem getCurrentFrontDir_unit (r : Renderable) (ops : List GOOp)
    (h : ∀ f : ℝ × ℝ, GOOp.setCurrentFrontDir f ∈ ops → f ≠ (0, 0)) :
    ((GameObject.new r).applyOps ops).getCurrentFrontDir.1 ^ 2 +
      ((GameObject.new r).applyOps ops).getCurrentFrontDir.2 ^ 2 = 1 := by
  have hinit : (GameObject.new r).mCurrentFrontDir.1 ^ 2 +
      (GameObject.new r).mCurrentFrontDir.2 ^ 2 = 1 := by
    simp [GameObject.new]
  simpa [GameObject.getCurrentFrontDir] using
    applyOps_frontDir_unit ops (GameObject.new r) h hinit

/-- Witness for C9: set the front direction to (3, 4) once. -/
theorem getCurrentFrontDir_unit_witness :
    (∀ f : ℝ × ℝ,
      GOOp.setCurrentFrontDir f ∈ [GOOp.setCurrentFrontDir ((3 : ℝ), (4 : ℝ))] →
      f ≠ (0, 0)) ∧
    ((GameObject.new ren0).applyOps
        [GOOp.setCurrentFrontDir ((3 : ℝ), (4 : ℝ))]).getCurrentFrontDir.1 ^ 2 +
      ((GameObject.new ren0).applyOps
        [GOOp.setCurrentFrontDir ((3 : ℝ), (4 : ℝ))]).getCurrentFrontDir.2 ^ 2 = 1 := by
  have h : ∀ f : ℝ × ℝ,
      GOOp.setCurrentFrontDir f ∈ [GOOp.setCurrentFrontDir ((3 : ℝ), (4 : ℝ))] →
      f ≠ (0, 0) := by
    intro f hf
    simp only [List.mem_singleton, GOOp.setCurrentFrontDir.injEq] at hf
    rw [hf]
    intro hcon
    have h3 : (3 : ℝ) = 0 := congrArg Prod.fst hcon
    norm_num at h3
  exact ⟨h, getCurrentFrontDir_unit ren0 _ h⟩

end Eng
